import Mathlib

/-
Verification of the themis specification-document builder (src/unnamed/part_000,
class Themis) against its natural-language specification.

The embedding models the JavaScript runtime values manipulated by the class as
a JSON-like inductive type.  A field of the class that may be `undefined` at
runtime is modelled as `Option Json` (`none` = JavaScript `undefined`), while
JSON `null` is the separate value `Json.null`; the two are distinguished
because property access throws on `null` but `?? `-coalescing treats both the
same.
-/

/-- A JSON-like runtime value.  Objects are ordered association lists, which
matches JavaScript insertion-ordered string-keyed properties as produced by
the code under verification (keys built by the class are never integer-like,
so the integer-key reordering rule of JavaScript objects is not exercised). -/
inductive Json where
  | null : Json
  | bool (b : Bool) : Json
  | num (n : Int) : Json
  | str (s : String) : Json
  | arr (items : List Json) : Json
  | obj (fields : List (String × Json)) : Json

/-- First binding of a key in an association list (object keys are unique in
all values the code constructs or parses, so first-match is exact). -/
def lookupField : List (String × Json) → String → Option Json
  | [], _ => none
  | (k, v) :: rest, key => if k == key then some v else lookupField rest key

/-- JavaScript property read `j[key]` for the keys used by the code:
object lookup, array index access for canonical numeric strings, `undefined`
(`none`) otherwise.  Reading a property of `null` is guarded by the callers
that model optional chaining or try/catch, so it is not reachable here. -/
def getField : Json → String → Option Json
  | .obj fs, key => lookupField fs key
  | .arr xs, key =>
      match key.toNat? with
      | some i => if toString i == key then xs.get? i else none
      | none => none
  | _, _ => none

/-- Body of JavaScript strict-mode property assignment `target[key] = v` on an
object: replace in place when the key exists, append otherwise. -/
def setFieldList : List (String × Json) → String → Json → List (String × Json)
  | [], k, v => [(k, v)]
  | (k0, v0) :: rest, k, v =>
      if k0 == k then (k, v) :: rest else (k0, v0) :: setFieldList rest k v

/-- JavaScript property assignment `j[key] = v`.  The non-object cases
(assigning a named property onto an array, or throwing on a primitive) are not
representable in a structural model and are unreachable from the states the
claims quantify over; they leave the value unchanged. -/
def setField : Json → String → Json → Json
  | .obj fs, k, v => .obj (setFieldList fs k v)
  | j, _, _ => j

/-- JavaScript truthiness of a runtime value (NaN is not modelled). -/
def jsTruthy : Json → Bool
  | .null => false
  | .bool b => b
  | .num n => n != 0
  | .str s => s != ""
  | .arr _ => true
  | .obj _ => true

/-- JavaScript nullish coalescing `x ?? d` where `x : Option Json` models a
possibly-`undefined` runtime value. -/
def nullishOr (x : Option Json) (d : Json) : Json :=
  match x with
  | none => d
  | some .null => d
  | some v => v

/-- JavaScript optional chaining `x?.[key]`: `undefined` when the receiver is
nullish, plain property read otherwise. -/
def optChain (x : Option Json) (key : String) : Option Json :=
  match x with
  | none => none
  | some .null => none
  | some j => getField j key

mutual

/-- Modelled from the spec: the merge engine (the external ts-deepmerge
dependency imported at src/unnamed/part_000 line 2, whose source is not part
of this repository).  Per spec section 4.1: two keyed maps merge recursively
key by key (keys present in only one operand pass through, colliding keys
recurse); two ordered sequences concatenate, existing before incoming, order
preserved, duplicates allowed; in every other combination the incoming value
overwrites the existing one.  Result key order: existing keys in their order,
then new incoming keys in incoming order, matching key-iteration merge. -/
def mergeJson : Json → Json → Json
  | .obj a, .obj b =>
      .obj (mergeFields a b ++ b.filter (fun q => (lookupField a q.1).isNone))
  | .arr a, .arr b => .arr (a ++ b)
  | _, b => b

/-- Modelled from the spec: the keyed-map half of the merge engine — every
existing binding is kept in place, with its value merged against the incoming
binding of the same key when one exists. -/
def mergeFields : List (String × Json) → List (String × Json) → List (String × Json)
  | [], _ => []
  | (k, v) :: rest, b =>
      (k, match lookupField b k with
          | some w => mergeJson v w
          | none => v) :: mergeFields rest b

end

/-- The caller-facing configuration object (interface ThemisConfig): a
directory and an optional file-name element placed between the directory and
the version in persisted file names.  The latter is named schemaFilePrefix in
the source. -/
structure ThemisConfig where
  docsDir : String
  schemaFilePrefixStr : Option String

/-- The result of Themis.checkAndConstructConfig — both entries resolved. -/
structure CheckedConfig where
  docsDir : String
  schemaFilePrefixStr : String

/-- The in-memory state of one Themis instance: the eight publishable
document fields plus the bookkeeping fields apiVersion and schemaFile.
Every publishable field is Option Json because loadFromFile can set any of
them to undefined; schemaFile is always assigned by bootstrap, either the
resolved path or the empty string. -/
structure Themis where
  openapi : Option Json
  info : Option Json
  servers : Option Json
  paths : Option Json
  components : Option Json
  security : Option Json
  tags : Option Json
  externalDocs : Option Json
  apiVersion : String
  schemaFile : String

namespace Themis

/-- Themis.checkAndConstructConfig: each entry is kept only when truthy and
different from the default, otherwise replaced by the default
(docsDir "themis", prefix "spec."). -/
def checkAndConstructConfig (c : ThemisConfig) : CheckedConfig :=
  { docsDir := if c.docsDir != "" && c.docsDir != "themis" then c.docsDir else "themis"
    schemaFilePrefixStr :=
      match c.schemaFilePrefixStr with
      | some p => if p != "" && p != "spec." then p else "spec."
      | none => "spec." }

/-- Themis.setOpenapi: plain assignment with nullish fallback to the old
value; the only mutation not wrapped in syncWrap. -/
def setOpenapi (s : Themis) (o : Option Json) : Themis :=
  { s with openapi :=
      match o with
      | none => s.openapi
      | some .null => s.openapi
      | some v => some v }

/-- Themis.defineInfo: info becomes merge(info ?? {}, incoming ?? {}). -/
def defineInfo (s : Themis) (info : Option Json) : Themis :=
  { s with info := some (mergeJson (nullishOr s.info (.obj [])) (nullishOr info (.obj []))) }

/-- The single-key wrapper pattern shared by defineServers,
defineSecurityRequirements and defineTags: build the one-entry objects
`(key, current ?? [])` and `(key, incoming ?? [])`, merge them, and read the
key back out of the result. -/
def wrapMerge (key : String) (cur inc : Option Json) : Option Json :=
  getField (mergeJson (.obj [(key, nullishOr cur (.arr []))]) (.obj [(key, nullishOr inc (.arr []))])) key

/-- Themis.defineServers: servers becomes the servers entry of
merge({servers: servers ?? []}, {servers: incoming ?? []}). -/
def defineServers (s : Themis) (servers : Option Json) : Themis :=
  { s with servers := wrapMerge "servers" s.servers servers }

/-- Themis.server: a batch of one server. -/
def server (s : Themis) (srv : Json) : Themis :=
  defineServers s (some (.arr [srv]))

/-- Themis.defineExternalDocs. -/
def defineExternalDocs (s : Themis) (ed : Option Json) : Themis :=
  { s with externalDocs := some (mergeJson (nullishOr s.externalDocs (.obj [])) (nullishOr ed (.obj []))) }

/-- Themis.defineSecurityRequirements: the same wrapper pattern as
defineServers, on the security field. -/
def defineSecurityRequirements (s : Themis) (sr : Option Json) : Themis :=
  { s with security := wrapMerge "security" s.security sr }

/-- Themis.securityRequirement: a batch of one requirement. -/
def securityRequirement (s : Themis) (r : Json) : Themis :=
  defineSecurityRequirements s (some (.arr [r]))

/-- Themis.defineTags: the same wrapper pattern, on the tags field. -/
def defineTags (s : Themis) (ts : Option Json) : Themis :=
  { s with tags := wrapMerge "tags" s.tags ts }

/-- Themis.definePaths: paths becomes merge(paths ?? {}, incoming); the
incoming fragment has no nullish guard in the source and is an object by
caller contract. -/
def definePaths (s : Themis) (ps : Json) : Themis :=
  { s with paths := some (mergeJson (nullishOr s.paths (.obj [])) ps) }

/-- Themis.path: a batch of one path. -/
def path (s : Themis) (p : String) (item : Json) : Themis :=
  definePaths s (.obj [(p, item)])

/-- Themis.defineComponents: components becomes merge(components ?? {}, incoming). -/
def defineComponents (s : Themis) (cs : Json) : Themis :=
  { s with components := some (mergeJson (nullishOr s.components (.obj [])) cs) }

/-- The shared body of the nine per-category component definers
(defineCallbackComponents, defineExampleComponents, defineHeaderComponents,
defineLinkComponents, defineParameterComponents, defineRequestBodyComponents,
defineResponseComponents, defineSchemaComponents,
defineSecuritySchemeComponents), which differ only in the category key: when
components is truthy, assign components[cat] = merge(components?.[cat] ?? [], frag);
otherwise install a fresh one-category components object. -/
def defineComponentMap (cat : String) (s : Themis) (frag : Json) : Themis :=
  match s.components with
  | some c =>
      if jsTruthy c then
        { s with components := some (setField c cat (mergeJson (nullishOr (optChain s.components cat) (.arr [])) frag)) }
      else { s with components := some (.obj [(cat, frag)]) }
  | none => { s with components := some (.obj [(cat, frag)]) }

/-- Themis.defineSchemaComponents. -/
def defineSchemaComponents (s : Themis) (frag : Json) : Themis :=
  defineComponentMap "schemas" s frag

/-- Themis.schemaComponent: a batch of one schema. -/
def schemaComponent (s : Themis) (key : String) (schema : Json) : Themis :=
  defineSchemaComponents s (.obj [(key, schema)])

/-- Themis.defineResponseComponents. -/
def defineResponseComponents (s : Themis) (frag : Json) : Themis :=
  defineComponentMap "responses" s frag

/-- Themis.defineCallbackComponents. -/
def defineCallbackComponents (s : Themis) (frag : Json) : Themis :=
  defineComponentMap "callbacks" s frag

/-- Themis.defineExampleComponents. -/
def defineExampleComponents (s : Themis) (frag : Json) : Themis :=
  defineComponentMap "examples" s frag

/-- Themis.defineHeaderComponents. -/
def defineHeaderComponents (s : Themis) (frag : Json) : Themis :=
  defineComponentMap "headers" s frag

/-- Themis.defineLinkComponents. -/
def defineLinkComponents (s : Themis) (frag : Json) : Themis :=
  defineComponentMap "links" s frag

/-- Themis.defineParameterComponents. -/
def defineParameterComponents (s : Themis) (frag : Json) : Themis :=
  defineComponentMap "parameters" s frag

/-- Themis.defineRequestBodyComponents. -/
def defineRequestBodyComponents (s : Themis) (frag : Json) : Themis :=
  defineComponentMap "requestBodies" s frag

/-- Themis.defineSecuritySchemeComponents. -/
def defineSecuritySchemeComponents (s : Themis) (frag : Json) : Themis :=
  defineComponentMap "securitySchemes" s frag

/-- The shared body of the eight component read accessors:
`!!this?.components?.[cat] ? this?.components?.[cat][key] : \x7b\x7d`.
The result is the stored property value — which is undefined (`none`) when
the key is absent — if the category is truthy, the empty object otherwise. -/
def readComponent (cat : String) (s : Themis) (key : String) : Option Json :=
  match optChain s.components cat with
  | some v => if jsTruthy v then getField v key else some (.obj [])
  | none => some (.obj [])

/-- Themis.getSchemaComponent. -/
def getSchemaComponent (s : Themis) (key : String) : Option Json :=
  readComponent "schemas" s key

/-- Themis.getResponseComponent. -/
def getResponseComponent (s : Themis) (key : String) : Option Json :=
  readComponent "responses" s key

/-- Themis.getParameterComponent. -/
def getParameterComponent (s : Themis) (key : String) : Option Json :=
  readComponent "parameters" s key

/-- Themis.getSchemaComponentRef: the method body does not read or write any
instance state, so it is embedded as a function of the key alone. -/
def getSchemaComponentRef (schema : String) : Json :=
  .obj [("$ref", .str ("#/components/schemas/" ++ schema))]

/-- Themis.getCallbackComponentRef. -/
def getCallbackComponentRef (callback : String) : Json :=
  .obj [("$ref", .str ("#/components/callbacks/" ++ callback))]

/-- Themis.getResponseComponentRef. -/
def getResponseComponentRef (response : String) : Json :=
  .obj [("$ref", .str ("#/components/responses/" ++ response))]

/-- Themis.loadFromFile.  The argument is the outcome of
require(String(this.schemaFile)): error when the file is absent, unreadable or
unparsable (require throws, the catch leaves the state untouched).  When the
parse yields JSON null the first property read inside the try block throws
before any field is assigned, so that case is also unchanged.  Otherwise all
eight publishable fields are replaced by the property reads, in particular a
field absent from the file becomes undefined. -/
def loadFromFile (s : Themis) (file : Except Unit Json) : Themis :=
  match file with
  | .error _ => s
  | .ok .null => s
  | .ok j =>
      { s with
        servers := getField j "servers"
        externalDocs := getField j "externalDocs"
        security := getField j "security"
        tags := getField j "tags"
        components := getField j "components"
        openapi := getField j "openapi"
        paths := getField j "paths"
        info := getField j "info" }

/-- Themis.shaveDownToSpec: the projection of the instance onto its eight
publishable fields (lodash pick keeps a declared field even when its value is
undefined). -/
def shaveDownToSpec (s : Themis) : List (String × Option Json) :=
  [("openapi", s.openapi), ("info", s.info), ("servers", s.servers),
   ("paths", s.paths), ("components", s.components), ("security", s.security),
   ("tags", s.tags), ("externalDocs", s.externalDocs)]

/-- The JSON document produced by JSON.stringify of the shaved projection:
fields whose value is undefined are dropped by the serializer. -/
def stringifySpec (s : Themis) : Json :=
  .obj ((shaveDownToSpec s).filterMap fun p => p.2.map fun v => (p.1, v))

/-- Node path.extname on the strings built by prepareFiles: take the portion
of the path after the last slash; the extension runs from its last dot to the
end, and is empty when that portion has no dot or the only dot is its first
character. -/
def extname (p : String) : String :=
  let base := (p.toList.reverse.takeWhile (fun c => c ≠ '/')).reverse
  let afterDot := base.reverse.takeWhile (fun c => c ≠ '.')
  if afterDot.length + 1 ≤ base.length then
    if base.length - afterDot.length - 1 = 0 then ""
    else String.mk ('.' :: afterDot.reverse)
  else ""

/-- The schema file path interpolated by prepareFiles:
projectRoot/docsDir/schemaFilePrefix + apiVersion + ".json". -/
def schemaFilePath (projectRoot : String) (cfg : CheckedConfig) (apiVersion : String) : String :=
  projectRoot ++ "/" ++ cfg.docsDir ++ "/" ++ cfg.schemaFilePrefixStr ++ apiVersion ++ ".json"

end Themis

/-- The part of the runtime owned by one Themis instance that the claims
observe: the instance state, the pending bootstrap file-creation write whose
callback has not yet been delivered (prepareFiles dispatches it when the path
was rejected or the file does not exist), and the log of flush writes
performed by syncWrap, each recording the target path and the serialized
document content. -/
structure Sys where
  st : Themis
  pendingCreate : Option String
  writes : List (String × Json)

/-- The fixed closed set of component categories. -/
inductive ComponentCat where
  | callbacks | examples | headers | links | parameters
  | requestBodies | responses | schemas | securitySchemes

/-- The field name of a component category. -/
def ComponentCat.key : ComponentCat → String
  | .callbacks => "callbacks"
  | .examples => "examples"
  | .headers => "headers"
  | .links => "links"
  | .parameters => "parameters"
  | .requestBodies => "requestBodies"
  | .responses => "responses"
  | .schemas => "schemas"
  | .securitySchemes => "securitySchemes"

/-- One syncWrap-wrapped mutation call (describe is the composition of the
listed operations and adds one further flush of its own, so it is not a
separate constructor). -/
inductive Mutation where
  | defineInfo (j : Option Json)
  | defineServers (j : Option Json)
  | defineExternalDocs (j : Option Json)
  | defineSecurityRequirements (j : Option Json)
  | defineTags (j : Option Json)
  | definePaths (j : Json)
  | defineComponents (j : Json)
  | defineComponentsOf (cat : ComponentCat) (j : Json)

/-- The in-memory effect of a mutation (the callback run by syncWrap). -/
def applyMut : Mutation → Themis → Themis
  | .defineInfo j, s => Themis.defineInfo s j
  | .defineServers j, s => Themis.defineServers s j
  | .defineExternalDocs j, s => Themis.defineExternalDocs s j
  | .defineSecurityRequirements j, s => Themis.defineSecurityRequirements s j
  | .defineTags j, s => Themis.defineTags s j
  | .definePaths j, s => Themis.definePaths s j
  | .defineComponents j, s => Themis.defineComponents s j
  | .defineComponentsOf cat j, s => Themis.defineComponentMap cat.key s j

/-- The flush half of Themis.syncWrap: when schemaFile is truthy, dispatch a
write of the serialized publishable projection to it; when it is the empty
string the flush is skipped entirely. -/
def flushSys (sys : Sys) : Sys :=
  if sys.st.schemaFile ≠ "" then
    { sys with writes := sys.writes ++ [(sys.st.schemaFile, Themis.stringifySpec sys.st)] }
  else sys

/-- An observable event after construction: a mutation call (callback plus
flush), the delivery of the bootstrap file-creation callback (on success it
re-points schemaFile at the created file, as the callback inside prepareFiles
does), or a loadFromFile call with the outcome of its file read. -/
inductive Ev where
  | mutate (m : Mutation)
  | createDone (ok : Bool)
  | load (file : Except Unit Json)

/-- One step of the event system. -/
def stepSys (sys : Sys) : Ev → Sys
  | .mutate m => flushSys { sys with st := applyMut m sys.st }
  | .createDone ok =>
      match sys.pendingCreate with
      | some p =>
          { sys with
            pendingCreate := none
            st := if ok then { sys.st with schemaFile := p } else sys.st }
      | none => sys
  | .load file => { sys with st := Themis.loadFromFile sys.st file }

/-- Run a sequence of events from a post-construction system state. -/
def runSys (sys : Sys) (evs : List Ev) : Sys :=
  evs.foldl stepSys sys

namespace Themis

/-- Themis.prepareFiles together with the field initializers of the class:
resolve the schema file path, accept it as schemaFile only when its extension
is ".json" (otherwise schemaFile is set to the empty string), and dispatch the
bootstrap file-creation write when schemaFile was rejected or the file does
not exist (fileExists models fs.existsSync on the resolved path). -/
def bootstrap (apiVersion : String) (info : Json) (projectRoot : String)
    (cfg : CheckedConfig) (fileExists : Bool) : Sys :=
  let p := schemaFilePath projectRoot cfg apiVersion
  let sf := if extname p == ".json" then p else ""
  { st :=
      { openapi := some (.str "3.0.0"), info := some info, servers := none,
        paths := some (.obj []), components := none, security := none,
        tags := none, externalDocs := none, apiVersion := apiVersion,
        schemaFile := sf }
    pendingCreate := if sf == "" || !fileExists then some p else none
    writes := [] }

/-- The Themis constructor.  configFile is the outcome of the unconditional
require(projectRoot + "/themis.config.json"): when that file is absent the
require throws and construction fails (no catch), whatever the caller-supplied
config argument is.  Otherwise the caller config takes precedence over the
file via the nullish coalescing config ?? incomingConfig, the result is
normalized by checkAndConstructConfig, and prepareFiles runs. -/
def construct (apiVersion : String) (info : Json) (projectRoot : String)
    (configFile : Option ThemisConfig) (config : Option ThemisConfig)
    (fileExists : Bool) : Except Unit Sys :=
  match configFile with
  | none => .error ()
  | some incoming =>
      .ok (bootstrap apiVersion info projectRoot
        (checkAndConstructConfig (config.getD incoming)) fileExists)

end Themis

namespace Themis

/-- The name properties of the current tag list, the quantity the tag-name
uniqueness invariant speaks about (undefined names appear as none). -/
def tagNames (s : Themis) : List (Option Json) :=
  match s.tags with
  | some (.arr ts) => ts.map fun t => getField t "name"
  | _ => []

end Themis

/-- A configuration equal to the defaults, as a themis.config.json would
typically contain. -/
def cfgEx : ThemisConfig :=
  { docsDir := "themis", schemaFilePrefixStr := some "spec." }

/-- A concrete tag fragment with name "a". -/
def tagEx : Json :=
  .obj [("name", .str "a"), ("description", .str "first")]

/-- A concrete server fragment. -/
def srvEx : Json :=
  .obj [("url", .str "/")]

/-- A concrete security-requirement fragment. -/
def secEx : Json :=
  .obj [("api_key", .arr [])]

/-- A freshly constructed document state for version v1 with a valid schema
file path and empty info: the class field initializers plus the assignments
performed by the constructor and prepareFiles on the happy path. -/
def docBase : Themis :=
  { openapi := some (.str "3.0.0"), info := some (.obj []), servers := none,
    paths := some (.obj []), components := none, security := none,
    tags := none, externalDocs := none, apiVersion := "v1",
    schemaFile := "/r/themis/spec.v1.json" }

/-- A state whose component registry holds exactly one schema under key "A"
(the state reached from docBase by defineSchemaComponents with that entry). -/
def docSchemas : Themis :=
  { docBase with components := some (.obj [("schemas", .obj [("A", .obj [("type", .str "object")])])]) }

/-- A state in which every field the nullish-tolerance claim touches is
defined with its documented shape. -/
def docTyped : Themis :=
  { docBase with
    info := some (.obj [("title", .str "t")])
    servers := some (.arr [srvEx])
    security := some (.arr [])
    tags := some (.arr [tagEx]) }

/-- The system state produced by constructing version "v1/" against project
root "/r" with the default configuration file and no caller config: the
resolved path /r/themis/spec.v1/.json has extension "" (its final portion is
the dotfile name .json), so bootstrap rejects it, sets schemaFile to the
empty string and dispatches the file-creation write. -/
def c2Sys0 : Sys :=
  match Themis.construct "v1/" (Json.obj []) "/r" (some cfgEx) none false with
  | .ok sys => sys
  | .error _ => { st := docBase, pendingCreate := none, writes := [] }

/-- Merging the empty object into an association list changes nothing. -/
theorem mergeFields_nil (fs : List (String × Json)) : mergeFields fs [] = fs := by
  induction fs with
  | nil => rfl
  | cons p rest ih =>
      cases p with
      | mk k v => simp [mergeFields, lookupField, ih]

/-- Merging the empty object into an object is the identity. -/
theorem mergeJson_obj_nil (fs : List (String × Json)) :
    mergeJson (.obj fs) (.obj []) = .obj fs := by
  simp [mergeJson, mergeFields_nil]

/-- The sequence-wrapper merge of two defined arrays concatenates them. -/
theorem wrapMerge_arr (key : String) (xs ys : List Json) :
    Themis.wrapMerge key (some (.arr xs)) (some (.arr ys)) = some (.arr (xs ++ ys)) := by
  simp [Themis.wrapMerge, nullishOr, mergeJson, mergeFields, lookupField, getField]

/-- The sequence-wrapper merge of an undefined current value and a defined
array installs the array. -/
theorem wrapMerge_none_arr (key : String) (ys : List Json) :
    Themis.wrapMerge key none (some (.arr ys)) = some (.arr ys) := by
  simp [Themis.wrapMerge, nullishOr, mergeJson, mergeFields, lookupField, getField]

/-- Nullish coalescing replaces undefined and null alike by the default. -/
theorem nullishOr_nullish {o : Option Json} (h : o = none ∨ o = some Json.null)
    (d : Json) : nullishOr o d = d := by
  rcases h with h | h <;> rw [h] <;> rfl

/-- A nullish incoming fragment behaves exactly like an empty array in the
sequence wrapper. -/
theorem wrapMerge_nullish (key : String) (cur : Option Json) {o : Option Json}
    (h : o = none ∨ o = some Json.null) :
    Themis.wrapMerge key cur o = Themis.wrapMerge key cur (some (.arr [])) := by
  unfold Themis.wrapMerge
  rw [nullishOr_nullish h]
  rfl

/-- Projection lemma: defineTags only rewrites the tags field through the
sequence wrapper. -/
theorem defineTags_tags (s : Themis) (ts : Option Json) :
    (Themis.defineTags s ts).tags = Themis.wrapMerge "tags" s.tags ts := rfl

/-- Projection lemma for defineServers. -/
theorem defineServers_servers (s : Themis) (vs : Option Json) :
    (Themis.defineServers s vs).servers = Themis.wrapMerge "servers" s.servers vs := rfl

/-- Projection lemma for defineSecurityRequirements. -/
theorem defineSecurity_security (s : Themis) (rs : Option Json) :
    (Themis.defineSecurityRequirements s rs).security = Themis.wrapMerge "security" s.security rs := rfl

/-- The per-category component definers never touch schemaFile. -/
theorem defineComponentMap_schemaFile (cat : String) (s : Themis) (j : Json) :
    (Themis.defineComponentMap cat s j).schemaFile = s.schemaFile := by
  unfold Themis.defineComponentMap
  cases s.components with
  | none => rfl
  | some c =>
      dsimp only
      split <;> rfl

/-- No mutation changes the resolved schema file path. -/
theorem applyMut_schemaFile : ∀ (m : Mutation) (s : Themis),
    (applyMut m s).schemaFile = s.schemaFile
  | .defineInfo _, _ => rfl
  | .defineServers _, _ => rfl
  | .defineExternalDocs _, _ => rfl
  | .defineSecurityRequirements _, _ => rfl
  | .defineTags _, _ => rfl
  | .definePaths _, _ => rfl
  | .defineComponents _, _ => rfl
  | .defineComponentsOf cat j, s => defineComponentMap_schemaFile cat.key s j

/-- Reloading never changes the resolved schema file path. -/
theorem loadFromFile_schemaFile (s : Themis) (f : Except Unit Json) :
    (Themis.loadFromFile s f).schemaFile = s.schemaFile := by
  cases f with
  | error e => rfl
  | ok j => cases j <;> rfl

/-- With an empty schemaFile a flush does nothing at all. -/
theorem flushSys_skip {sys : Sys} (h : sys.st.schemaFile = "") :
    flushSys sys = sys := by
  simp [flushSys, h]

/-- While schemaFile is the empty string and the bootstrap creation callback
never succeeds, no event can produce a flush write. -/
theorem runSys_writes_empty (evs : List Ev) : ∀ (sys : Sys),
    sys.st.schemaFile = "" → sys.writes = [] → Ev.createDone true ∉ evs →
    (runSys sys evs).writes = [] := by
  induction evs with
  | nil => intro sys _ h2 _; exact h2
  | cons e rest ih =>
      intro sys h1 h2 h3
      have h3' : Ev.createDone true ∉ rest := fun h => h3 (List.mem_cons_of_mem _ h)
      have hne : e ≠ Ev.createDone true := fun h => h3 (h ▸ List.mem_cons_self _ _)
      show (runSys (stepSys sys e) rest).writes = []
      cases e with
      | mutate m =>
          have hsf : (applyMut m sys.st).schemaFile = "" := by
            rw [applyMut_schemaFile]; exact h1
          have hskip : stepSys sys (.mutate m) = { sys with st := applyMut m sys.st } := by
            show flushSys _ = _
            exact flushSys_skip hsf
          rw [hskip] at *
          exact ih _ hsf h2 h3'
      | createDone ok =>
          cases ok with
          | true => exact absurd rfl hne
          | false =>
              cases hp : sys.pendingCreate with
              | none =>
                  have : stepSys sys (.createDone false) = sys := by
                    simp [stepSys, hp]
                  rw [this]
                  exact ih _ h1 h2 h3'
              | some p =>
                  have : stepSys sys (.createDone false)
                      = { sys with pendingCreate := none } := by
                    simp [stepSys, hp]
                  rw [this]
                  exact ih _ h1 h2 h3'
      | load f =>
          have : (Themis.loadFromFile sys.st f).schemaFile = "" := by
            rw [loadFromFile_schemaFile]; exact h1
          exact ih _ this h2 h3'

/-- C5: reload is full replacement on success and leaves the state untouched
on failure.  When require of the schema file throws (absent, unreadable or
unparsable file) or the parse yields null, the in-memory document is exactly
unchanged; when it yields an object, every publishable field equals the
corresponding property of the file (fields absent from the file become
undefined), while the bookkeeping fields apiVersion and schemaFile are not
replaced. -/
theorem loadFromFile_replace_or_unchanged (s : Themis) (fs : List (String × Json)) :
    Themis.loadFromFile s (.error ()) = s
  ∧ Themis.loadFromFile s (.ok .null) = s
  ∧ (Themis.loadFromFile s (.ok (.obj fs))).openapi = lookupField fs "openapi"
  ∧ (Themis.loadFromFile s (.ok (.obj fs))).info = lookupField fs "info"
  ∧ (Themis.loadFromFile s (.ok (.obj fs))).servers = lookupField fs "servers"
  ∧ (Themis.loadFromFile s (.ok (.obj fs))).paths = lookupField fs "paths"
  ∧ (Themis.loadFromFile s (.ok (.obj fs))).components = lookupField fs "components"
  ∧ (Themis.loadFromFile s (.ok (.obj fs))).security = lookupField fs "security"
  ∧ (Themis.loadFromFile s (.ok (.obj fs))).tags = lookupField fs "tags"
  ∧ (Themis.loadFromFile s (.ok (.obj fs))).externalDocs = lookupField fs "externalDocs"
  ∧ (Themis.loadFromFile s (.ok (.obj fs))).apiVersion = s.apiVersion
  ∧ (Themis.loadFromFile s (.ok (.obj fs))).schemaFile = s.schemaFile :=
  ⟨rfl, rfl, rfl, rfl, rfl, rfl, rfl, rfl, rfl, rfl, rfl, rfl⟩

/-- C7: reference generation is a pure deterministic formatter.  For every
key, the schema reference is literally the single-field object whose ref
entry is "#/components/schemas/" followed by the key, and likewise for the
callbacks category; the methods take no state and so cannot depend on or
modify the document. -/
theorem componentRef_formatter (k : String) :
    Themis.getSchemaComponentRef k
      = Json.obj [("$ref", Json.str ("#/components/schemas/" ++ k))]
  ∧ Themis.getCallbackComponentRef k
      = Json.obj [("$ref", Json.str ("#/components/callbacks/" ++ k))]
  ∧ getField (Themis.getSchemaComponentRef k) "$ref"
      = some (Json.str ("#/components/schemas/" ++ k)) :=
  ⟨rfl, rfl, rfl⟩

/-- C8: every singular convenience mutation is definitionally the batch
mutation applied to a batch of one entry, so singular and batch produce the
same resulting document in every state. -/
theorem singular_eq_batch_of_one (s : Themis) (p : String) (item : Json)
    (srv : Json) (k : String) (schema : Json) :
    Themis.path s p item = Themis.definePaths s (.obj [(p, item)])
  ∧ Themis.server s srv = Themis.defineServers s (some (.arr [srv]))
  ∧ Themis.schemaComponent s k schema
      = Themis.defineSchemaComponents s (.obj [(k, schema)]) :=
  ⟨rfl, rfl, rfl⟩

/-- C9: the constructor performs the require of projectRoot/themis.config.json
unconditionally before looking at the caller config, so construction fails
when that file is absent even if a complete configuration was passed; and
when the file loads, a supplied caller config makes the result independent of
the file content. -/
theorem constructor_requires_config_file (apiVersion : String) (info : Json)
    (projectRoot : String) (config : Option ThemisConfig) (fileExists : Bool)
    (cf1 cf2 c : ThemisConfig) :
    Themis.construct apiVersion info projectRoot none config fileExists = .error ()
  ∧ Themis.construct apiVersion info projectRoot (some cf1) (some c) fileExists
      = Themis.construct apiVersion info projectRoot (some cf2) (some c) fileExists :=
  ⟨rfl, rfl⟩

/-- Case analysis of one component read accessor: empty object exactly when
the optional chain to the category is falsy, plain property lookup when the
category is a defined object. -/
theorem readComponent_cases (cat : String) (s : Themis) (k : String) :
    (optChain s.components cat = none → Themis.readComponent cat s k = some (Json.obj []))
  ∧ (∀ v, optChain s.components cat = some v → jsTruthy v = false →
      Themis.readComponent cat s k = some (Json.obj []))
  ∧ (∀ fs, optChain s.components cat = some (Json.obj fs) →
      Themis.readComponent cat s k = lookupField fs k) := by
  refine ⟨fun h => ?_, fun v h hv => ?_, fun fs h => ?_⟩
  · simp [Themis.readComponent, h]
  · simp [Themis.readComponent, h, hv]
  · simp [Themis.readComponent, h, jsTruthy, getField]

/-- C1 counterexample: in a state whose schemas category holds only the key
"A", reading the undefined key "B" does not return an empty object (it
returns undefined), refuting the claim that a missing-key read inside an
existing category yields an empty object. -/
theorem missingKey_read_is_undefined :
    Themis.getSchemaComponent docSchemas "B" ≠ some (Json.obj [])
  ∧ Themis.getSchemaComponent docSchemas "B" = none := by
  have h : Themis.getSchemaComponent docSchemas "B" = none := rfl
  exact ⟨by rw [h]; simp, h⟩

/-- C1 as amended: a component read never fails, and returns the empty object
exactly when the whole category is missing or falsy (components undefined, or
the category entry undefined); when the category is a defined object the read
returns the stored property, which is undefined — not an empty object — when
the key is absent.  Stated for the two accessors the claim cites. -/
theorem component_read_miss_behavior (s : Themis) (k : String) :
    (optChain s.components "schemas" = none →
      Themis.getSchemaComponent s k = some (Json.obj []))
  ∧ (∀ v, optChain s.components "schemas" = some v → jsTruthy v = false →
      Themis.getSchemaComponent s k = some (Json.obj []))
  ∧ (∀ fs, optChain s.components "schemas" = some (Json.obj fs) →
      Themis.getSchemaComponent s k = lookupField fs k)
  ∧ (optChain s.components "responses" = none →
      Themis.getResponseComponent s k = some (Json.obj []))
  ∧ (∀ v, optChain s.components "responses" = some v → jsTruthy v = false →
      Themis.getResponseComponent s k = some (Json.obj []))
  ∧ (∀ fs, optChain s.components "responses" = some (Json.obj fs) →
      Themis.getResponseComponent s k = lookupField fs k) := by
  have hs := readComponent_cases "schemas" s k
  have hr := readComponent_cases "responses" s k
  exact ⟨hs.1, hs.2.1, hs.2.2, hr.1, hr.2.1, hr.2.2⟩

/-- Witness for the amended C1: reading any key of a fresh document (no
components at all) yields the empty object, and reading a missing key of an
existing schemas category yields the stored property of the category object. -/
theorem component_read_miss_behavior_witness :
    Themis.getSchemaComponent docBase "Pet" = some (Json.obj [])
  ∧ Themis.getResponseComponent docSchemas "Pet" = some (Json.obj [])
  ∧ Themis.getSchemaComponent docSchemas "B"
      = lookupField [("A", Json.obj [("type", Json.str "object")])] "B" :=
  ⟨(component_read_miss_behavior docBase "Pet").1 rfl,
   (component_read_miss_behavior docSchemas "Pet").2.2.2.1 rfl,
   (component_read_miss_behavior docSchemas "B").2.2.1
     [("A", Json.obj [("type", Json.str "object")])] rfl⟩

/-- C3: merging sequence-valued fragments concatenates in call order with no
de-duplication.  From a document with no prior tags (and likewise no prior
servers or security requirements), defining one element and then another
leaves the field equal to the two-element sequence in call order — for any
elements, including equal ones. -/
theorem sequence_concat_order (s : Themis) (t1 t2 v1 v2 r1 r2 : Json)
    (ht : s.tags = none) (hv : s.servers = none) (hr : s.security = none) :
    (Themis.defineTags (Themis.defineTags s (some (.arr [t1]))) (some (.arr [t2]))).tags
      = some (.arr [t1, t2])
  ∧ (Themis.defineServers (Themis.defineServers s (some (.arr [v1]))) (some (.arr [v2]))).servers
      = some (.arr [v1, v2])
  ∧ (Themis.defineSecurityRequirements
        (Themis.defineSecurityRequirements s (some (.arr [r1]))) (some (.arr [r2]))).security
      = some (.arr [r1, r2]) := by
  refine ⟨?_, ?_, ?_⟩
  · rw [defineTags_tags, defineTags_tags, ht, wrapMerge_none_arr, wrapMerge_arr]
    rfl
  · rw [defineServers_servers, defineServers_servers, hv, wrapMerge_none_arr, wrapMerge_arr]
    rfl
  · rw [defineSecurity_security, defineSecurity_security, hr, wrapMerge_none_arr, wrapMerge_arr]
    rfl

/-- Witness for C3 at a fresh document, with the two tags equal — showing in
particular that a duplicate element is kept. -/
theorem sequence_concat_order_witness :
    (Themis.defineTags (Themis.defineTags docBase (some (.arr [tagEx]))) (some (.arr [tagEx]))).tags
      = some (.arr [tagEx, tagEx])
  ∧ (Themis.defineServers (Themis.defineServers docBase (some (.arr [srvEx]))) (some (.arr [srvEx]))).servers
      = some (.arr [srvEx, srvEx])
  ∧ (Themis.defineSecurityRequirements
        (Themis.defineSecurityRequirements docBase (some (.arr [secEx]))) (some (.arr [secEx]))).security
      = some (.arr [secEx, secEx]) :=
  sequence_concat_order docBase tagEx tagEx srvEx srvEx secEx secEx rfl rfl rfl

/-- C4 counterexample: on a freshly constructed document (components
undefined) the mutation defineComponents with the empty fragment does not
leave the components field unchanged — it installs an empty object — so the
claim that an empty-fragment mutation always leaves the corresponding field
unchanged is false. -/
theorem defineComponents_empty_changes_undefined :
    (Themis.defineComponents docBase (.obj [])).components ≠ docBase.components := by
  have h : (Themis.defineComponents docBase (.obj [])).components = some (Json.obj []) := rfl
  rw [h]
  simp [docBase]

/-- C4 as amended: merging the empty object into any object document is the
identity, and consequently a mutation whose fragment is the empty object
leaves the corresponding field unchanged whenever that field is already a
defined object; when the field is undefined, the mutation installs the empty
object instead. -/
theorem merge_empty_identity (fs : List (String × Json)) (s : Themis)
    (cs : List (String × Json)) (hc : s.components = some (Json.obj cs)) :
    mergeJson (.obj fs) (.obj []) = .obj fs
  ∧ (Themis.defineComponents s (.obj [])).components = s.components := by
  refine ⟨mergeJson_obj_nil fs, ?_⟩
  show some (mergeJson (nullishOr s.components (.obj [])) (.obj [])) = s.components
  rw [hc]
  show some (mergeJson (.obj cs) (.obj [])) = some (.obj cs)
  rw [mergeJson_obj_nil]

/-- Witness for the amended C4 on a state whose component registry is the
defined object holding schema "A". -/
theorem merge_empty_identity_witness :
    mergeJson (.obj [("a", Json.str "x")]) (.obj []) = .obj [("a", Json.str "x")]
  ∧ (Themis.defineComponents docSchemas (.obj [])).components = docSchemas.components :=
  merge_empty_identity [("a", Json.str "x")] docSchemas
    [("schemas", .obj [("A", .obj [("type", .str "object")])])] rfl

/-- C6: tag-name uniqueness is stated as an invariant (by the documentation
of the tags field in the source and by the specification) but the code does
not enforce it: from a fresh document, defining the tag named "a" twice
yields a reachable state whose tag-name list is two copies of "a", which is
not duplicate-free. -/
theorem duplicate_tag_names_reachable :
    Themis.tagNames
        (Themis.defineTags (Themis.defineTags docBase (some (.arr [tagEx]))) (some (.arr [tagEx])))
      = [some (Json.str "a"), some (Json.str "a")]
  ∧ ¬ List.Nodup
        (Themis.tagNames
          (Themis.defineTags (Themis.defineTags docBase (some (.arr [tagEx]))) (some (.arr [tagEx])))) := by
  have h : Themis.tagNames
      (Themis.defineTags (Themis.defineTags docBase (some (.arr [tagEx]))) (some (.arr [tagEx])))
      = [some (Json.str "a"), some (Json.str "a")] := rfl
  refine ⟨h, ?_⟩
  rw [h]
  simp [List.nodup_cons]

/-- C10: the four nullish-tolerant mutations accept an undefined or null
fragment: the call behaves exactly like the call with an empty fragment
(so it cannot fail), and when the target field is already defined with its
documented shape its value is left exactly unchanged. -/
theorem nullish_fragment_tolerated (s : Themis) (o : Option Json)
    (hn : o = none ∨ o = some Json.null) :
    Themis.defineTags s o = Themis.defineTags s (some (.arr []))
  ∧ Themis.defineServers s o = Themis.defineServers s (some (.arr []))
  ∧ Themis.defineSecurityRequirements s o
      = Themis.defineSecurityRequirements s (some (.arr []))
  ∧ Themis.defineInfo s o = Themis.defineInfo s (some (.obj []))
  ∧ (∀ ts, s.tags = some (.arr ts) → (Themis.defineTags s o).tags = s.tags)
  ∧ (∀ vs, s.servers = some (.arr vs) → (Themis.defineServers s o).servers = s.servers)
  ∧ (∀ rs, s.security = some (.arr rs) →
      (Themis.defineSecurityRequirements s o).security = s.security)
  ∧ (∀ fs, s.info = some (.obj fs) → (Themis.defineInfo s o).info = s.info) := by
  refine ⟨?_, ?_, ?_, ?_, fun ts hts => ?_, fun vs hvs => ?_, fun rs hrs => ?_, fun fs hfs => ?_⟩
  · show { s with tags := Themis.wrapMerge "tags" s.tags o } = _
    rw [wrapMerge_nullish "tags" s.tags hn]
    rfl
  · show { s with servers := Themis.wrapMerge "servers" s.servers o } = _
    rw [wrapMerge_nullish "servers" s.servers hn]
    rfl
  · show { s with security := Themis.wrapMerge "security" s.security o } = _
    rw [wrapMerge_nullish "security" s.security hn]
    rfl
  · show { s with info := some (mergeJson (nullishOr s.info (.obj [])) (nullishOr o (.obj []))) } = _
    rw [nullishOr_nullish hn]
    rfl
  · rw [defineTags_tags, hts, wrapMerge_nullish "tags" _ hn, wrapMerge_arr]
    simp
  · rw [defineServers_servers, hvs, wrapMerge_nullish "servers" _ hn, wrapMerge_arr]
    simp
  · rw [defineSecurity_security, hrs, wrapMerge_nullish "security" _ hn, wrapMerge_arr]
    simp
  · show some (mergeJson (nullishOr s.info (.obj [])) (nullishOr o (.obj []))) = s.info
    rw [nullishOr_nullish hn, hfs]
    show some (mergeJson (.obj fs) (.obj [])) = some (.obj fs)
    rw [mergeJson_obj_nil]

/-- Witness for C10 on a document whose info, servers, security and tags are
all defined with their documented shapes, called with the undefined fragment. -/
theorem nullish_fragment_tolerated_witness :
    Themis.defineTags docTyped none = Themis.defineTags docTyped (some (.arr []))
  ∧ Themis.defineInfo docTyped none = Themis.defineInfo docTyped (some (.obj []))
  ∧ (Themis.defineTags docTyped none).tags = docTyped.tags
  ∧ (Themis.defineServers docTyped none).servers = docTyped.servers
  ∧ (Themis.defineSecurityRequirements docTyped none).security = docTyped.security
  ∧ (Themis.defineInfo docTyped none).info = docTyped.info :=
  have h := nullish_fragment_tolerated docTyped none (Or.inl rfl)
  ⟨h.1, h.2.2.2.1,
   h.2.2.2.2.1 [tagEx] rfl,
   h.2.2.2.2.2.1 [srvEx] rfl,
   h.2.2.2.2.2.2.1 [] rfl,
   h.2.2.2.2.2.2.2 [("title", Json.str "t")] rfl⟩

/-- C2 counterexample: construction of version "v1/" resolves to the path
/r/themis/spec.v1/.json whose extension is not ".json", so bootstrap rejects
it (schemaFile becomes ""); yet prepareFiles also dispatches the file
creation for the rejected path, and if its callback succeeds it re-points
schemaFile at the path — after which the flush of the next mutation writes to
the file, refuting the claim that every subsequent flush is a no-op. -/
theorem memoryOnly_flush_writes_after_create :
    Themis.construct "v1/" (Json.obj []) "/r" (some cfgEx) none false = .ok c2Sys0
  ∧ c2Sys0.st.schemaFile = ""
  ∧ (runSys c2Sys0
        [Ev.createDone true, Ev.mutate (.defineTags (some (.arr [tagEx])))]).writes.length = 1
  ∧ (runSys c2Sys0
        [Ev.createDone true, Ev.mutate (.defineTags (some (.arr [tagEx])))]).writes.map Prod.fst
      = ["/r/themis/spec.v1/.json"] :=
  ⟨rfl, rfl, rfl, rfl⟩

/-- C2 as amended: after a bootstrap that rejected the file extension
(schemaFile is the empty string), every flush is a no-op only as long as the
bootstrap file-creation callback has not succeeded: for every event sequence
containing no successful creation callback, no write to the file ever
happens. -/
theorem flush_noop_until_create_success (apiVersion : String) (info : Json)
    (projectRoot : String) (configFile config : Option ThemisConfig)
    (fileExists : Bool) (sys : Sys) (evs : List Ev)
    (h1 : Themis.construct apiVersion info projectRoot configFile config fileExists = .ok sys)
    (h2 : sys.st.schemaFile = "")
    (h3 : Ev.createDone true ∉ evs) :
    (runSys sys evs).writes = [] := by
  have hw : sys.writes = [] := by
    cases configFile with
    | none => exact absurd h1 (by simp [Themis.construct])
    | some inc =>
        have hinj : Themis.bootstrap apiVersion info projectRoot
            (Themis.checkAndConstructConfig (config.getD inc)) fileExists = sys := by
          simpa [Themis.construct] using h1
        rw [← hinj]
        rfl
  exact runSys_writes_empty evs sys h2 hw h3

/-- Witness for the amended C2: on the rejected-extension construction, a
mutation flush, a failed creation callback and another mutation flush produce
no writes at all. -/
theorem flush_noop_until_create_success_witness :
    (runSys c2Sys0
        [Ev.mutate (.defineTags (some (.arr [tagEx]))), Ev.createDone false,
         Ev.mutate (.definePaths (Json.obj []))]).writes = [] :=
  flush_noop_until_create_success "v1/" (Json.obj []) "/r" (some cfgEx) none false c2Sys0
    [Ev.mutate (.defineTags (some (.arr [tagEx]))), Ev.createDone false,
     Ev.mutate (.definePaths (Json.obj []))]
    rfl rfl (by simp)
